import Mathlib

/-!
Verification of the Renotags reward-integrity subsystem: a shallow embedding
of the points ledger (`utils/pointsManager.ts`), the referral completion
tracker (`routes/referrals.ts`), the task lifecycle (`routes/tasks.ts`),
the lazy ban-expiry gate (`middleware/banCheck.ts`) and the bot-signal
scorer (`middleware/botPrevention.ts`), together with theorems about the
properties the specification states for them.

The MongoDB document store is modelled as lists of records; `findOne`
becomes `List.find?`, `countDocuments` becomes `List.filter` + `length`,
and a Mongoose `save()` becomes an in-place replacement of the document
with the matching key (Mongoose only writes the modified paths, so a save
of a stale in-memory document does not clobber fields it did not touch;
the embedding therefore applies each field update to the stored record).
Timestamps are `Nat` seconds; the 1-hour window of the bot scorer is 3600.
Untyped `Mixed` metadata blobs (transaction metadata, verificationData)
carry no behaviour and are elided.

`await` points that can throw are modelled by explicit fault flags: a
fault at a store operation makes that operation throw, which the source
catches (returning a failure result, or falling through to `next()`).
-/

namespace Renotags

/-- A user document (`UserSchema` in `index.ts`), restricted to the fields
the reward-integrity subsystem reads or writes. -/
structure UserRec where
  id : Nat
  email : String
  name : String
  emailVerified : Bool
  telegramVerified : Bool
  telegramFollowed : Bool
  renopaysTag : Option String
  referredBy : Option String
  points : Nat
  successfulReferrals : Nat
  banned : Bool
  banReason : Option String
  bannedUntil : Option Nat
  createdAt : Nat
  deriving Repr, DecidableEq

/-- A `points_awarded` OnboardingEvent, i.e. one ledger transaction as
written by `awardPoints`. -/
structure PointsTxn where
  userId : Nat
  amount : Nat
  reason : String
  deriving Repr, DecidableEq

/-- Referral status enum (`ReferralSchema.status`). -/
inductive RefStatus where
  | pending
  | completed
  deriving Repr, DecidableEq

/-- A referral document (`ReferralSchema` in `index.ts`), unique per
(referrerId, referredEmail). -/
structure ReferralRec where
  referrerId : Nat
  referredEmail : String
  referredName : String
  status : RefStatus
  emailVerified : Bool
  telegramVerified : Bool
  telegramFollowed : Bool
  renopaysTagCreated : Bool
  allVerificationsComplete : Bool
  pointsAwarded : Bool
  completedAt : Option Nat
  deriving Repr, DecidableEq

/-- A task definition (`TaskSchema`), restricted to the fields the task
lifecycle reads. -/
structure TaskRec where
  id : Nat
  title : String
  pointsReward : Nat
  isActive : Bool
  requiresVerification : Bool
  deriving Repr, DecidableEq

/-- UserTask status enum (`UserTaskSchema.status`). -/
inductive TaskStatus where
  | pending
  | submitted
  | approved
  | rejected
  | completed
  deriving Repr, DecidableEq

/-- A task completion document (`UserTaskSchema`), unique per
(userId, taskId). -/
structure UserTaskRec where
  userId : Nat
  taskId : Nat
  status : TaskStatus
  completedAt : Option Nat
  submittedAt : Option Nat
  reviewedAt : Option Nat
  submissionLink : Option String
  rejectionReason : Option String
  pointsAwarded : Bool
  deriving Repr, DecidableEq

/-- A bot-detection document (`BotDetection` model): one suspicion event. -/
structure BotDetectionRec where
  email : String
  ipAddress : String
  fingerprint : String
  userAgent : String
  suspiciousScore : Nat
  blocked : Bool
  createdAt : Nat
  deriving Repr, DecidableEq

/-- An `onboarding_started` OnboardingEvent carrying `eventData.signup_ip`,
as counted by the bot scorer's same-IP check. -/
structure SignupEvent where
  ip : String
  createdAt : Nat
  deriving Repr, DecidableEq

/-- The document store: one list per collection (OnboardingEvents are split
by `eventType` into the points transactions and the signup events, since
every query in the source filters on `eventType`). -/
structure Store where
  users : List UserRec
  txns : List PointsTxn
  referrals : List ReferralRec
  tasks : List TaskRec
  userTasks : List UserTaskRec
  botDetections : List BotDetectionRec
  signupEvents : List SignupEvent
  deriving Repr, DecidableEq

/-- JS `String.prototype.toLowerCase()`, embedded as a per-character
lowercase map (the emails and tags in this system are ASCII). -/
def lowerStr (s : String) : String := String.mk (s.data.map Char.toLower)

/-- `User.findById(id)`. -/
def findUserById (s : Store) (uid : Nat) : Option UserRec :=
  s.users.find? (fun u => u.id == uid)

/-- `User.findOne({ email })`. -/
def findUserByEmail (s : Store) (email : String) : Option UserRec :=
  s.users.find? (fun u => u.email == email)

/-- `User.findOne({ renopaysTag: tag })`. -/
def findUserByTag (s : Store) (tag : String) : Option UserRec :=
  s.users.find? (fun u => u.renopaysTag == some tag)

/-- A `save()` on a user document: replace the stored document with the
same `_id`. -/
def saveUser (s : Store) (u : UserRec) : Store :=
  { s with users := s.users.map (fun v => if v.id == u.id then u else v) }

/-- The cached point balance of an account, if it exists. -/
def userPoints (s : Store) (uid : Nat) : Option Nat :=
  (findUserById s uid).map (·.points)

/-- Sum of the amounts of all recorded points transactions of an account. -/
def sumTxns (s : Store) (uid : Nat) : Nat :=
  ((s.txns.filter (fun t => t.userId == uid)).map (·.amount)).sum

/-- Fault model for one `awardPoints` call: which of its three store
operations throws. -/
structure AwardFaults where
  findFails : Bool
  saveFails : Bool
  createFails : Bool
  deriving Repr, DecidableEq

/-- No store operation throws. -/
def AwardFaults.none : AwardFaults := ⟨false, false, false⟩

/-- Result shape of `awardPoints` (`{ success, newBalance, error? }`). -/
structure AwardResult where
  success : Bool
  newBalance : Nat
  error : Option String
  deriving Repr, DecidableEq

/-- `awardPoints(userId, amount, reason)` from `utils/pointsManager.ts`:
validate the amount, load the user, write the incremented balance with
`user.save()`, then append the `points_awarded` OnboardingEvent. A throw
at any operation is caught and reported as `success: false`; note that a
throw at the event create happens *after* the balance save. -/
def awardPoints (s : Store) (userId : Nat) (amount : Int) (reason : String)
    (f : AwardFaults) : AwardResult × Store :=
  if amount ≤ 0 then
    (⟨false, 0, some "Points amount must be positive"⟩, s)
  else if f.findFails then
    (⟨false, 0, some "Failed to award points"⟩, s)
  else
    match findUserById s userId with
    | Option.none => (⟨false, 0, some "User not found"⟩, s)
    | some user =>
      let oldBalance := user.points
      let newBalance := oldBalance + amount.toNat
      if f.saveFails then
        (⟨false, 0, some "Failed to award points"⟩, s)
      else
        let s1 := saveUser s { user with points := newBalance }
        if f.createFails then
          (⟨false, 0, some "Failed to award points"⟩, s1)
        else
          (⟨true, newBalance, Option.none⟩,
           { s1 with txns := s1.txns ++ [⟨user.id, amount.toNat, reason⟩] })

/-- Invariant I1: every account's cached balance equals the sum of its
recorded transactions. -/
def ledgerInvariant (s : Store) : Prop :=
  ∀ u ∈ s.users, u.points = sumTxns s u.id

instance (s : Store) : Decidable (ledgerInvariant s) := by
  unfold ledgerInvariant; infer_instance

/-- `Referral.findOne({ referrerId, referredEmail })`. -/
def findReferral (s : Store) (referrerId : Nat) (referredEmail : String) :
    Option ReferralRec :=
  s.referrals.find? (fun r =>
    r.referrerId == referrerId && r.referredEmail == referredEmail)

/-- A `save()` on a referral document: replace the stored document with the
same (referrerId, referredEmail) compound key (unique index I2). -/
def saveReferral (s : Store) (r : ReferralRec) : Store :=
  { s with referrals := s.referrals.map (fun q =>
      if q.referrerId == r.referrerId && q.referredEmail == r.referredEmail
      then r else q) }

/-- `Referral.create({ referrerId, referredEmail, referredName })` with the
schema defaults of `ReferralSchema`. -/
def newReferral (referrerId : Nat) (referredEmail referredName : String) :
    ReferralRec :=
  { referrerId := referrerId
    referredEmail := referredEmail
    referredName := referredName
    status := RefStatus.pending
    emailVerified := false
    telegramVerified := false
    telegramFollowed := false
    renopaysTagCreated := false
    allVerificationsComplete := false
    pointsAwarded := false
    completedAt := Option.none }

/-- `referrer.save()` after `referrer.successfulReferrals = x`: Mongoose
writes only the modified path, so only `successfulReferrals` is set on the
stored document. -/
def saveSuccessfulReferrals (s : Store) (uid n : Nat) : Store :=
  { s with users := s.users.map (fun v =>
      if v.id == uid then { v with successfulReferrals := n } else v) }

/-- Response of the check-referral-completion endpoint: 404, the
not-yet-complete requirement checklist, or the all-complete message. -/
inductive RefOutcome where
  | notFound
  | notComplete (emailVerified telegramVerified telegramFollowed
      renopaysTagCreated : Bool)
  | complete
  deriving Repr, DecidableEq

/-- The `POST /check-referral-completion` handler of `routes/referrals.ts`:
load the user, evaluate the four verification flags; on an incomplete set
return the checklist without touching the store. On a complete set, if the
user was referred and the referrer's tag resolves: find-or-create the
referral record, refresh its mirrored booleans and status, and — when
`pointsAwarded` is still false — award +150 to the referrer and +100 to
the referred account, incrementing `successfulReferrals` when the referrer
award succeeds and flipping `pointsAwarded` only when both awards
succeed. `fReferrer`/`fReferred` are the fault flags of the two
`awardPoints` calls. -/
def checkReferralCompletion (s : Store) (userEmail : String) (now : Nat)
    (fReferrer fReferred : AwardFaults) : RefOutcome × Store :=
  match findUserByEmail s userEmail with
  | Option.none => (.notFound, s)
  | some user =>
    let allComplete := user.emailVerified && user.telegramVerified &&
      user.telegramFollowed && user.renopaysTag.isSome
    if !allComplete then
      (.notComplete user.emailVerified user.telegramVerified
        user.telegramFollowed user.renopaysTag.isSome, s)
    else
      match user.referredBy with
      | Option.none => (.complete, s)
      | some tag =>
        match findUserByTag s tag with
        | Option.none => (.complete, s)
        | some referrer =>
          let key := lowerStr userEmail
          let found := findReferral s referrer.id key
          let referral := found.getD (newReferral referrer.id key user.name)
          let s₀ := if found.isSome then s
                    else { s with referrals := s.referrals ++ [referral] }
          let referral1 := { referral with
            emailVerified := user.emailVerified
            telegramVerified := user.telegramVerified
            telegramFollowed := user.telegramFollowed
            renopaysTagCreated := user.renopaysTag.isSome
            allVerificationsComplete := allComplete
            status := if allComplete then RefStatus.completed
                      else RefStatus.pending
            completedAt := if allComplete && referral.completedAt.isNone
                           then some now else referral.completedAt }
          let s₁ := saveReferral s₀ referral1
          if allComplete && !referral1.pointsAwarded then
            let res1 := awardPoints s₁ referrer.id 150
              "Successful referral completed" fReferrer
            let s₂ := res1.2
            let s₃ := if res1.1.success then
                saveSuccessfulReferrals s₂ referrer.id
                  (referrer.successfulReferrals + 1)
              else s₂
            let res2 := awardPoints s₃ user.id 100
              "Referral bonus - completed all verifications" fReferred
            let s₄ := res2.2
            let s₅ := if res1.1.success && res2.1.success then
                saveReferral s₄ { referral1 with pointsAwarded := true }
              else s₄
            (.complete, s₅)
          else
            (.complete, s₁)

/-- `Task.findOne({ _id: taskId, isActive: true })`. -/
def findTaskActive (s : Store) (taskId : Nat) : Option TaskRec :=
  s.tasks.find? (fun t => t.id == taskId && t.isActive)

/-- `UserTask.findOne({ userId, taskId })`. -/
def findUserTask (s : Store) (uid tid : Nat) : Option UserTaskRec :=
  s.userTasks.find? (fun ut => ut.userId == uid && ut.taskId == tid)

/-- A `save()` on a user-task document: replace the stored document with
the same (userId, taskId) compound key (unique index I3). -/
def saveUserTask (s : Store) (ut : UserTaskRec) : Store :=
  { s with userTasks := s.userTasks.map (fun q =>
      if q.userId == ut.userId && q.taskId == ut.taskId then ut else q) }

/-- Response of the task endpoints (HTTP statuses mapped to the spec's
error taxonomy: the 400s on an already-terminal record are `Conflict`). -/
inductive TaskOutcome where
  | userNotFound
  | taskNotFound
  | requiresReview
  | alreadyCompleted
  | missingLink
  | invalidLink
  | ok
  deriving Repr, DecidableEq

/-- The `POST /:taskId/complete` handler of `routes/tasks.ts` (direct
path): reject review-path tasks, reject records already `completed` or
`approved`, otherwise set the record to `completed` and — when the task
carries a positive reward — award the points and flip `pointsAwarded`
only if the award succeeded. -/
def completeTask (s : Store) (userEmail : String) (taskId : Nat) (now : Nat)
    (f : AwardFaults) : TaskOutcome × Store :=
  match findUserByEmail s userEmail with
  | Option.none => (.userNotFound, s)
  | some user =>
    match findTaskActive s taskId with
    | Option.none => (.taskNotFound, s)
    | some task =>
      if task.requiresVerification then (.requiresReview, s)
      else
        let existing := findUserTask s user.id task.id
        match existing with
        | some ut =>
          if ut.status == TaskStatus.completed ||
             ut.status == TaskStatus.approved then
            (.alreadyCompleted, s)
          else
            let ut1 := { ut with status := TaskStatus.completed
                                 completedAt := some now }
            let s₁ := saveUserTask s ut1
            if 0 < task.pointsReward then
              let res := awardPoints s₁ user.id (task.pointsReward : Int)
                ("Task completed: " ++ task.title) f
              if res.1.success then
                (.ok, saveUserTask res.2 { ut1 with pointsAwarded := true })
              else (.ok, res.2)
            else (.ok, s₁)
        | Option.none =>
          let ut1 : UserTaskRec :=
            { userId := user.id
              taskId := task.id
              status := TaskStatus.completed
              completedAt := some now
              submittedAt := Option.none
              reviewedAt := Option.none
              submissionLink := Option.none
              rejectionReason := Option.none
              pointsAwarded := false }
          let s₁ := { s with userTasks := s.userTasks ++ [ut1] }
          if 0 < task.pointsReward then
            let res := awardPoints s₁ user.id (task.pointsReward : Int)
              ("Task completed: " ++ task.title) f
            if res.1.success then
              (.ok, saveUserTask res.2 { ut1 with pointsAwarded := true })
            else (.ok, res.2)
          else (.ok, s₁)

/-- The `POST /:taskId/submit` handler of `routes/tasks.ts` (review path):
require a submission link whose parse by `new URL` succeeds (the URL
constructor is environment-provided and abstracted as the `isValidURL`
oracle), reject records already `approved` or `completed`, otherwise
set-or-create the record in `submitted` state, overwriting the
submission link and timestamp. -/
def submitTask (s : Store) (userEmail : String) (taskId : Nat)
    (submissionLink : Option String) (isValidURL : String → Bool)
    (now : Nat) : TaskOutcome × Store :=
  match submissionLink with
  | Option.none => (.missingLink, s)
  | some link =>
    if !(isValidURL link) then (.invalidLink, s)
    else
      match findUserByEmail s userEmail with
      | Option.none => (.userNotFound, s)
      | some user =>
        match findTaskActive s taskId with
        | Option.none => (.taskNotFound, s)
        | some task =>
          match findUserTask s user.id task.id with
          | some ut =>
            if ut.status == TaskStatus.approved ||
               ut.status == TaskStatus.completed then
              (.alreadyCompleted, s)
            else
              (.ok, saveUserTask s { ut with
                status := TaskStatus.submitted
                submissionLink := some link
                submittedAt := some now })
          | Option.none =>
            (.ok, { s with userTasks := s.userTasks ++
                [{ userId := user.id
                   taskId := task.id
                   status := TaskStatus.submitted
                   completedAt := Option.none
                   submittedAt := some now
                   reviewedAt := Option.none
                   submissionLink := some link
                   rejectionReason := Option.none
                   pointsAwarded := false }] })

/-- Verdict of the ban gate: proceed, or 403 with reason and expiry. -/
inductive BanOutcome where
  | allowed
  | denied (banReason : String) (bannedUntil : Option Nat)
  deriving Repr, DecidableEq

/-- `checkBanStatus` from `middleware/banCheck.ts`: a read-time policy on
the account's embedded ban state. An expired ban (`bannedUntil < now`) is
cleared on the account as a side effect and the request proceeds; an
unexpired or open-ended ban denies with the stored reason (or the generic
fallback) and leaves the account untouched. -/
def checkBanStatus (s : Store) (userEmail : Option String) (now : Nat) :
    BanOutcome × Store :=
  match userEmail with
  | Option.none => (.allowed, s)
  | some e =>
    match findUserByEmail s (lowerStr e) with
    | Option.none => (.allowed, s)
    | some user =>
      if user.banned then
        match user.bannedUntil with
        | some t =>
          if t < now then
            (.allowed, saveUser s { user with
              banned := false
              banReason := Option.none
              bannedUntil := Option.none })
          else
            (.denied (user.banReason.getD "Violation of terms of service")
              user.bannedUntil, s)
        | Option.none =>
          (.denied (user.banReason.getD "Violation of terms of service")
            user.bannedUntil, s)
      else (.allowed, s)

/-- Fault model for one `checkBotActivity` call: which of its five store
operations throws (any throw is caught and the request proceeds). -/
structure BotFaults where
  userLookupFails : Bool
  countFails : Bool
  createBlockedFails : Bool
  detectionLookupFails : Bool
  createFlaggedFails : Bool
  deriving Repr, DecidableEq

/-- No store operation throws. -/
def BotFaults.none : BotFaults := ⟨false, false, false, false, false⟩

/-- Verdict of the bot scorer: proceed, or one of its three blocks. -/
inductive BotOutcome where
  | proceed
  | tooManyFromEmail
  | tooManyFromIP
  | securityBlock
  deriving Repr, DecidableEq

/-- `BotDetection.findOne({ $or: [{email}, {ipAddress}, {fingerprint}] })
.sort({ createdAt: -1 })`: the most recent matching signal (insertion
order breaks ties). -/
def latestBotDetection (s : Store) (email ip fp : String) :
    Option BotDetectionRec :=
  (s.botDetections.filter (fun b =>
    b.email == email || b.ipAddress == ip || b.fingerprint == fp)).foldl
    (fun acc b =>
      match acc with
      | Option.none => some b
      | some a => if a.createdAt ≤ b.createdAt then some b else some a)
    Option.none

/-- `checkBotActivity` from `middleware/botPrevention.ts`: no email in the
body proceeds immediately; a user created with this email inside the
rolling 1-hour window blocks with too-many-from-email; at least 3 signup
events from this IP inside the window persist a blocking score-100 signal
and block with too-many-from-IP; a most-recent matching signal with
`blocked` denies; otherwise the score (seeded from the most recent
matching signal, +20 for a missing or short user agent) persists a
non-blocking signal at 50 and the request proceeds. Every fault is caught
by the surrounding try and falls through to `next()`. -/
def checkBotActivity (s : Store) (bodyEmail : Option String)
    (ip userAgent fingerprint : String) (now : Nat) (f : BotFaults) :
    BotOutcome × Store :=
  match bodyEmail with
  | Option.none => (.proceed, s)
  | some e =>
    let email := lowerStr e
    if f.userLookupFails then (.proceed, s)
    else
      let recentSignup := s.users.find? (fun u =>
        u.email == email && now - 3600 ≤ u.createdAt)
      if recentSignup.isSome then (.tooManyFromEmail, s)
      else if f.countFails then (.proceed, s)
      else
        let ipSignups := (s.signupEvents.filter (fun ev =>
          ev.ip == ip && now - 3600 ≤ ev.createdAt)).length
        if 3 ≤ ipSignups then
          if f.createBlockedFails then (.proceed, s)
          else
            (.tooManyFromIP,
             { s with botDetections := s.botDetections ++
                 [⟨email, ip, fingerprint, userAgent, 100, true, now⟩] })
        else if f.detectionLookupFails then (.proceed, s)
        else
          let botCheck := latestBotDetection s email ip fingerprint
          if (botCheck.map (·.blocked)).getD false then (.securityBlock, s)
          else
            let base := (botCheck.map (·.suspiciousScore)).getD 0
            let score := if userAgent == "" || userAgent.length < 10
                         then base + 20 else base
            if 50 ≤ score then
              if f.createFlaggedFails then (.proceed, s)
              else
                (.proceed,
                 { s with botDetections := s.botDetections ++
                     [⟨email, ip, fingerprint, userAgent, score, false,
                       now⟩] })
            else (.proceed, s)

/-- A sequence of `awardPoints` calls, each `(userId, amount, reason,
faults)`, applied left to right. -/
def runAwards (s : Store)
    (calls : List (Nat × Int × String × AwardFaults)) : Store :=
  calls.foldl
    (fun st c => (awardPoints st c.1 c.2.1 c.2.2.1 c.2.2.2).2) s

/-! ### Ledger lemmas -/

theorem sumTxns_set_txns (s : Store) (l : List PointsTxn) (uid : Nat) :
    sumTxns { s with txns := l } uid =
      ((l.filter (fun t => t.userId == uid)).map (·.amount)).sum := rfl

theorem sumTxns_append_one (s : Store) (t : PointsTxn) (uid : Nat) :
    sumTxns { s with txns := s.txns ++ [t] } uid =
      sumTxns s uid + (if t.userId == uid then t.amount else 0) := by
  by_cases h : (t.userId == uid) = true
  · simp [sumTxns, List.filter_append, h]
  · simp only [Bool.not_eq_true] at h
    simp [sumTxns, List.filter_append, h]

theorem saveUser_users (s : Store) (u : UserRec) :
    (saveUser s u).users =
      s.users.map (fun v => if v.id == u.id then u else v) := rfl

theorem saveUser_txns (s : Store) (u : UserRec) :
    (saveUser s u).txns = s.txns := rfl

/-- On a call whose transaction append does not throw, `awardPoints`
either fully applies (balance saved and transaction appended) or leaves
the store unchanged and reports failure. -/
theorem awardPoints_atomic_cases (s : Store) (uid : Nat) (amt : Int)
    (r : String) (f : AwardFaults) (hf : f.createFails = false) :
    (∃ user, findUserById s uid = some user ∧
      (awardPoints s uid amt r f).1.success = true ∧
      (awardPoints s uid amt r f).2 =
        { saveUser s { user with points := user.points + amt.toNat } with
          txns := s.txns ++ [⟨user.id, amt.toNat, r⟩] }) ∨
    ((awardPoints s uid amt r f).1.success = false ∧
      (awardPoints s uid amt r f).2 = s) := by
  unfold awardPoints
  by_cases h1 : amt ≤ 0
  · right; simp [h1]
  · by_cases h2 : f.findFails = true
    · right; simp [h1, h2]
    · simp only [Bool.not_eq_true] at h2
      cases h3 : findUserById s uid with
      | none => right; simp [h1, h2, h3]
      | some user =>
        by_cases h4 : f.saveFails = true
        · right; simp [h1, h2, h3, h4]
        · simp only [Bool.not_eq_true] at h4
          left
          refine ⟨user, rfl, ?_, ?_⟩
          · simp [h1, h2, h3, h4, hf]
          · simp [h1, h2, h3, h4, hf, saveUser]

/-- A single `awardPoints` call whose transaction append does not throw
preserves invariant I1. -/
theorem awardPoints_preserves_I1 (s : Store) (uid : Nat) (amt : Int)
    (r : String) (f : AwardFaults) (hf : f.createFails = false)
    (hInv : ledgerInvariant s) :
    ledgerInvariant (awardPoints s uid amt r f).2 := by
  rcases awardPoints_atomic_cases s uid amt r f hf with
    ⟨user, hfind, _, hst⟩ | ⟨_, hst⟩
  · rw [hst]
    have huser_mem : user ∈ s.users := List.mem_of_find?_eq_some hfind
    have huser_bal : user.points = sumTxns s user.id := hInv user huser_mem
    intro v hv
    simp only [saveUser_users] at hv
    rcases List.mem_map.mp hv with ⟨w, hw, hgw⟩
    have htx : ∀ z : Nat,
        sumTxns { saveUser s { user with points := user.points + amt.toNat }
            with txns := s.txns ++ [(⟨user.id, amt.toNat, r⟩ : PointsTxn)] } z
          = sumTxns s z + (if user.id == z then amt.toNat else 0) := by
      intro z
      have := sumTxns_append_one
        (saveUser s { user with points := user.points + amt.toNat })
        ⟨user.id, amt.toNat, r⟩ z
      simpa [sumTxns, saveUser] using this
    by_cases hwid : (w.id == user.id) = true
    · rw [if_pos hwid] at hgw
      have hzid : w.id = user.id := by simpa using hwid
      subst hgw
      simp only [htx]
      simp [huser_bal]
    · rw [if_neg hwid] at hgw
      subst hgw
      rw [htx w.id]
      simp only [Bool.not_eq_true] at hwid
      have hwid' : w.id ≠ user.id := by simpa using hwid
      have hne : (user.id == w.id) = false := by
        simp only [beq_eq_false_iff_ne]
        exact fun h => hwid' h.symm
      rw [hne]
      simpa using hInv w hw
  · rw [hst]; exact hInv

/-- A failing `awardPoints` call whose transaction append does not throw
leaves the store unchanged. -/
theorem awardPoints_fail_no_change (s : Store) (uid : Nat) (amt : Int)
    (r : String) (f : AwardFaults) (hf : f.createFails = false)
    (hfail : (awardPoints s uid amt r f).1.success = false) :
    (awardPoints s uid amt r f).2 = s := by
  rcases awardPoints_atomic_cases s uid amt r f hf with
    ⟨user, _, hsucc, _⟩ | ⟨_, hst⟩
  · rw [hsucc] at hfail; cases hfail
  · exact hst

/-! ### C2: ledger invariant I1 under sequences of awards -/

/-- C2 (counterexample): invariant I1 does *not* survive every failing
`awardPoints` call. On a store satisfying I1, a call whose
OnboardingEvent create throws (after `user.save()` already persisted the
new balance) reports failure yet leaves the balance at 10 with no
recorded transaction, breaking `balance = Σ transactions`. -/
theorem awardPoints_failed_call_breaks_I1 :
    let s : Store := ⟨[⟨0, "a@x", "A", false, false, false, Option.none,
      Option.none, 0, 0, false, Option.none, Option.none, 0⟩],
      [], [], [], [], [], []⟩
    let res := awardPoints s 0 10 "signup bonus" ⟨false, false, true⟩
    ledgerInvariant s ∧
    res.1.success = false ∧
    userPoints res.2 0 = some 10 ∧
    sumTxns res.2 0 = 0 ∧
    ¬ ledgerInvariant res.2 := by
  decide

/-- C2 (amended): for every account, after any sequence of `awardPoints`
calls in which no call's transaction-log append throws after its balance
save (`createFails = false`), the cached balance equals the sum of the
recorded transactions, and any failing call in that regime alters neither
the balance nor the transaction log (it leaves the store unchanged). -/
theorem awards_preserve_ledger_invariant (s : Store)
    (calls : List (Nat × Int × String × AwardFaults))
    (hInv : ledgerInvariant s)
    (hf : ∀ c ∈ calls, c.2.2.2.createFails = false) :
    ledgerInvariant (runAwards s calls) ∧
    (∀ uid amt r f, f.createFails = false →
      (awardPoints s uid amt r f).1.success = false →
      (awardPoints s uid amt r f).2 = s) := by
  constructor
  · induction calls generalizing s with
    | nil => exact hInv
    | cons c cs ih =>
      have h1 := awardPoints_preserves_I1 s c.1 c.2.1 c.2.2.1 c.2.2.2
        (hf c (List.mem_cons_self c cs)) hInv
      have h2 : ∀ d ∈ cs, d.2.2.2.createFails = false :=
        fun d hd => hf d (List.mem_cons_of_mem c hd)
      simpa [runAwards] using
        ih (awardPoints s c.1 c.2.1 c.2.2.1 c.2.2.2).2 h1 h2
  · intro uid amt r f hcf hfail
    exact awardPoints_fail_no_change s uid amt r f hcf hfail

/-- Witness for C2's amended theorem at a concrete store and call list
(a successful award, a rejected non-positive award, and an award to an
unknown account). -/
theorem awards_preserve_ledger_invariant_witness :
    ledgerInvariant (runAwards ⟨[⟨0, "a@x", "A", false, false, false,
      Option.none, Option.none, 0, 0, false, Option.none, Option.none, 0⟩],
      [], [], [], [], [], []⟩
      [(0, 10, "signup bonus", AwardFaults.none),
       (0, -5, "bad amount", AwardFaults.none),
       (1, 5, "unknown account", AwardFaults.none)]) := by
  exact (awards_preserve_ledger_invariant _ _ (by decide) (by decide)).1

/-! ### C5: all-or-nothing application of an award -/

/-- C5 (counterexample): `awardPoints` *can* partially apply. On an
account with balance 3 and one recorded transaction of 3, a call whose
OnboardingEvent create throws leaves the balance incremented to 10 while
the transaction log is unchanged — a balance change with no matching
transaction record. -/
theorem awardPoints_can_partially_apply :
    let s : Store := ⟨[⟨5, "b@x", "B", false, false, false, Option.none,
      Option.none, 3, 0, false, Option.none, Option.none, 0⟩],
      [⟨5, 3, "earlier award"⟩], [], [], [], [], []⟩
    let res := awardPoints s 5 7 "task reward" ⟨false, false, true⟩
    res.1.success = false ∧
    res.2.txns = s.txns ∧
    userPoints s 5 = some 3 ∧
    userPoints res.2 5 = some 10 := by
  decide

/-- C5 (amended): provided the transaction-record append does not throw
after the balance save (`createFails = false`), `awardPoints` never
partially applies: either it succeeds and both the transaction record is
appended and the account balance is saved incremented by the amount, or
it fails and the store is unchanged. -/
theorem awardPoints_all_or_nothing (s : Store) (uid : Nat) (amt : Int)
    (r : String) (f : AwardFaults) (hf : f.createFails = false) :
    (∃ user, findUserById s uid = some user ∧
      (awardPoints s uid amt r f).1.success = true ∧
      (awardPoints s uid amt r f).2 =
        { saveUser s { user with points := user.points + amt.toNat } with
          txns := s.txns ++ [⟨user.id, amt.toNat, r⟩] }) ∨
    ((awardPoints s uid amt r f).1.success = false ∧
      (awardPoints s uid amt r f).2 = s) :=
  awardPoints_atomic_cases s uid amt r f hf

/-- Witness for C5's amended theorem at a concrete fault-free call. -/
theorem awardPoints_all_or_nothing_witness :
    let s : Store := ⟨[⟨5, "b@x", "B", false, false, false, Option.none,
      Option.none, 3, 0, false, Option.none, Option.none, 0⟩],
      [⟨5, 3, "earlier award"⟩], [], [], [], [], []⟩
    (∃ user, findUserById s 5 = some user ∧
      (awardPoints s 5 7 "task reward" AwardFaults.none).1.success = true ∧
      (awardPoints s 5 7 "task reward" AwardFaults.none).2 =
        { saveUser s { user with points := user.points + (7 : Int).toNat }
            with
          txns := s.txns ++ [⟨user.id, (7 : Int).toNat, "task reward"⟩] }) ∨
    ((awardPoints s 5 7 "task reward" AwardFaults.none).1.success = false ∧
      (awardPoints s 5 7 "task reward" AwardFaults.none).2 = s) := by
  exact awardPoints_all_or_nothing _ 5 7 "task reward" AwardFaults.none
    (by decide)

/-! ### C7: lazy ban expiry -/

/-- C7: for a banned account whose `bannedUntil` lies in the past, one
`checkBanStatus` call clears `banned`, `banReason` and `bannedUntil` on
the stored account and allows the request; for a `bannedUntil` in the
future (or now), the call denies with the stored reason (or the generic
fallback) and leaves the store unchanged. -/
theorem banGate_lazy_expiry (s : Store) (e : String) (now : Nat)
    (user : UserRec) (hfind : findUserByEmail s (lowerStr e) = some user)
    (hban : user.banned = true) :
    (∀ t, user.bannedUntil = some t → t < now →
      (checkBanStatus s (some e) now).1 = BanOutcome.allowed ∧
      (checkBanStatus s (some e) now).2 =
        saveUser s
          { user with
            banned := false
            banReason := Option.none
            bannedUntil := Option.none }) ∧
    (∀ t, user.bannedUntil = some t → ¬ t < now →
      (checkBanStatus s (some e) now).1 =
        BanOutcome.denied (user.banReason.getD
          "Violation of terms of service") (some t) ∧
      (checkBanStatus s (some e) now).2 = s) := by
  constructor
  · intro t ht hlt
    simp [checkBanStatus, hfind, hban, ht, hlt]
  · intro t ht hlt
    simp [checkBanStatus, hfind, hban, ht, hlt]

/-- Witness for C7 at a concrete two-account store: the expired ban
(until 50 < now 100) is cleared and allowed; the unexpired ban
(until 500) is denied with the stored reason, store untouched. -/
theorem banGate_lazy_expiry_witness :
    let past : UserRec := ⟨0, "expired@x", "E", false, false, false,
      Option.none, Option.none, 0, 0, true, some "spam", some 50, 0⟩
    let fut : UserRec := ⟨1, "active@x", "F", false, false, false,
      Option.none, Option.none, 0, 0, true, some "abuse", some 500, 0⟩
    let s : Store := ⟨[past, fut], [], [], [], [], [], []⟩
    ((checkBanStatus s (some "expired@x") 100).1 = BanOutcome.allowed ∧
     (checkBanStatus s (some "expired@x") 100).2 =
       saveUser s
         { past with
           banned := false
           banReason := Option.none
           bannedUntil := Option.none }) ∧
    ((checkBanStatus s (some "active@x") 100).1 =
       BanOutcome.denied "abuse" (some 500) ∧
     (checkBanStatus s (some "active@x") 100).2 = s) := by
  refine ⟨?_, ?_⟩
  · exact (banGate_lazy_expiry
      ⟨[⟨0, "expired@x", "E", false, false, false, Option.none,
         Option.none, 0, 0, true, some "spam", some 50, 0⟩,
        ⟨1, "active@x", "F", false, false, false, Option.none,
         Option.none, 0, 0, true, some "abuse", some 500, 0⟩],
       [], [], [], [], [], []⟩ "expired@x" 100
      ⟨0, "expired@x", "E", false, false, false, Option.none,
       Option.none, 0, 0, true, some "spam", some 50, 0⟩
      (by decide) (by decide)).1 50 (by decide) (by decide)
  · exact (banGate_lazy_expiry
      ⟨[⟨0, "expired@x", "E", false, false, false, Option.none,
         Option.none, 0, 0, true, some "spam", some 50, 0⟩,
        ⟨1, "active@x", "F", false, false, false, Option.none,
         Option.none, 0, 0, true, some "abuse", some 500, 0⟩],
       [], [], [], [], [], []⟩ "active@x" 100
      ⟨1, "active@x", "F", false, false, false, Option.none,
       Option.none, 0, 0, true, some "abuse", some 500, 0⟩
      (by decide) (by decide)).2 500 (by decide) (by decide)

/-! ### C6: bot scorer same-IP threshold -/

/-- C6 (counterexample): with exactly 2 prior signup events from IP
`203.0.113.5` inside the window, a 3rd signup attempt from that IP is
*not* blocked: `checkBotActivity` proceeds and persists nothing. -/
theorem botScorer_third_attempt_allowed :
    let s : Store := ⟨[], [], [], [], [], [],
      [⟨"203.0.113.5", 100⟩, ⟨"203.0.113.5", 200⟩]⟩
    let res := checkBotActivity s (some "new@x") "203.0.113.5"
      "Mozilla/5.0 (X11)" "fp" 300 BotFaults.none
    res.1 = BotOutcome.proceed ∧
    res.1 ≠ BotOutcome.tooManyFromIP ∧
    res.2 = s := by
  decide

/-- C6 (amended): the same-IP block fires exactly when at least 3 *prior*
signup events from the IP lie inside the rolling window — so the 3rd
attempt (2 priors) is still allowed, as is the 2nd (1 prior), and the
first blocked attempt is the 4th, which persists the blocking score-100
BotSignal. Stated for a request with no recent same-email signup, no
matching prior BotSignal and a normal-length user agent. -/
theorem botScorer_ip_threshold (s : Store) (e ip ua fp : String)
    (now : Nat)
    (hemail : s.users.find? (fun u =>
      u.email == (lowerStr e) && now - 3600 ≤ u.createdAt) = Option.none)
    (hdet : latestBotDetection s (lowerStr e) ip fp = Option.none)
    (hua : 10 ≤ ua.length) :
    (3 ≤ (s.signupEvents.filter (fun ev =>
        ev.ip == ip && now - 3600 ≤ ev.createdAt)).length →
      checkBotActivity s (some e) ip ua fp now BotFaults.none =
        (BotOutcome.tooManyFromIP,
         { s with botDetections := s.botDetections ++
             [⟨lowerStr e, ip, fp, ua, 100, true, now⟩] })) ∧
    ((s.signupEvents.filter (fun ev =>
        ev.ip == ip && now - 3600 ≤ ev.createdAt)).length < 3 →
      checkBotActivity s (some e) ip ua fp now BotFaults.none =
        (BotOutcome.proceed, s)) := by
  have hcond : ¬ (ua = "" ∨ ua.length < 10) := by
    rintro (h | h)
    · rw [h] at hua; simp at hua
    · omega
  have hemail2 : ∀ x ∈ s.users, x.email = lowerStr e →
      x.createdAt + 3600 < now := by
    simpa using hemail
  constructor
  · intro hc
    simp at hc
    simp [checkBotActivity, BotFaults.none, hc, hdet, hcond]
    exact hemail2
  · intro hc
    simp at hc
    have hc3 : ¬ 3 ≤ (List.filter (fun ev =>
        ev.ip == ip && decide (now ≤ ev.createdAt + 3600))
        s.signupEvents).length := by omega
    simp [checkBotActivity, BotFaults.none, hc3, hdet, hcond]
    exact hemail2

/-- Witness for C6's amended theorem: with 3 prior in-window events the
4th attempt is blocked and the blocking signal persisted; with 2 prior
events the 3rd attempt proceeds. -/
theorem botScorer_ip_threshold_witness :
    let s3 : Store := ⟨[], [], [], [], [], [],
      [⟨"203.0.113.5", 100⟩, ⟨"203.0.113.5", 200⟩, ⟨"203.0.113.5", 250⟩]⟩
    let s2 : Store := ⟨[], [], [], [], [], [],
      [⟨"203.0.113.5", 100⟩, ⟨"203.0.113.5", 200⟩]⟩
    (checkBotActivity s3 (some "new@x") "203.0.113.5" "Mozilla/5.0 (X11)"
      "fp" 300 BotFaults.none =
      (BotOutcome.tooManyFromIP,
       { s3 with botDetections :=
           [⟨"new@x", "203.0.113.5", "fp", "Mozilla/5.0 (X11)", 100, true,
             300⟩] })) ∧
    (checkBotActivity s2 (some "new@x") "203.0.113.5" "Mozilla/5.0 (X11)"
      "fp" 300 BotFaults.none = (BotOutcome.proceed, s2)) := by
  constructor
  · exact (botScorer_ip_threshold
      ⟨[], [], [], [], [], [], [⟨"203.0.113.5", 100⟩, ⟨"203.0.113.5", 200⟩,
        ⟨"203.0.113.5", 250⟩]⟩ "new@x" "203.0.113.5"
      "Mozilla/5.0 (X11)" "fp" 300 (by decide) (by decide)
      (by decide)).1 (by decide)
  · exact (botScorer_ip_threshold
      ⟨[], [], [], [], [], [],
        [⟨"203.0.113.5", 100⟩, ⟨"203.0.113.5", 200⟩]⟩ "new@x" "203.0.113.5"
      "Mozilla/5.0 (X11)" "fp" 300 (by decide) (by decide)
      (by decide)).2 (by decide)

/-! ### C10: the bot scorer is fail-open -/

set_option maxHeartbeats 1000000 in
/-- C10: `checkBotActivity` is fail-open. A request without an email in
the body proceeds untouched; a call in which every store operation throws
proceeds untouched; and any blocking verdict coincides with the
fault-free run — an internal failure never produces a block. -/
theorem botScorer_fail_open (s : Store) (bodyEmail : Option String)
    (ip ua fp : String) (now : Nat) (f : BotFaults) :
    (bodyEmail = Option.none →
      checkBotActivity s bodyEmail ip ua fp now f =
        (BotOutcome.proceed, s)) ∧
    (checkBotActivity s bodyEmail ip ua fp now ⟨true, true, true, true,
      true⟩ = (BotOutcome.proceed, s)) ∧
    ((checkBotActivity s bodyEmail ip ua fp now f).1 ≠ BotOutcome.proceed →
      checkBotActivity s bodyEmail ip ua fp now f =
        checkBotActivity s bodyEmail ip ua fp now BotFaults.none) := by
  cases bodyEmail with
  | none =>
    refine ⟨?_, ?_, ?_⟩
    · intro _
      rfl
    · rfl
    · intro h
      exact absurd rfl h
  | some e =>
    refine ⟨?_, ?_, ?_⟩
    · intro h
      cases h
    · simp [checkBotActivity]
    · intro h
      simp only [checkBotActivity, BotFaults.none] at h ⊢
      split_ifs at h ⊢ <;> simp_all

/-- Witness for C10 at concrete inputs: a blocked run (3 prior in-window
events from the IP) with a downstream fault flag set coincides with the
fault-free run, and a run with every store operation throwing proceeds. -/
theorem botScorer_fail_open_witness :
    (checkBotActivity ⟨[], [], [], [], [], [],
      [⟨"198.51.100.7", 10⟩, ⟨"198.51.100.7", 20⟩, ⟨"198.51.100.7", 30⟩]⟩
      (some "w@y") "198.51.100.7" "Mozilla/5.0 (X11)" "fpw" 40
      ⟨false, false, false, false, true⟩ =
     checkBotActivity ⟨[], [], [], [], [], [],
      [⟨"198.51.100.7", 10⟩, ⟨"198.51.100.7", 20⟩, ⟨"198.51.100.7", 30⟩]⟩
      (some "w@y") "198.51.100.7" "Mozilla/5.0 (X11)" "fpw" 40
      BotFaults.none) ∧
    (checkBotActivity ⟨[], [], [], [], [], [],
      [⟨"198.51.100.7", 10⟩, ⟨"198.51.100.7", 20⟩, ⟨"198.51.100.7", 30⟩]⟩
      (some "w@y") "198.51.100.7" "Mozilla/5.0 (X11)" "fpw" 40
      ⟨true, true, true, true, true⟩ =
     (BotOutcome.proceed, ⟨[], [], [], [], [], [],
      [⟨"198.51.100.7", 10⟩, ⟨"198.51.100.7", 20⟩,
       ⟨"198.51.100.7", 30⟩]⟩)) := by
  constructor
  · exact (botScorer_fail_open ⟨[], [], [], [], [], [],
      [⟨"198.51.100.7", 10⟩, ⟨"198.51.100.7", 20⟩, ⟨"198.51.100.7", 30⟩]⟩
      (some "w@y") "198.51.100.7" "Mozilla/5.0 (X11)" "fpw" 40
      ⟨false, false, false, false, true⟩).2.2 (by decide)
  · exact (botScorer_fail_open ⟨[], [], [], [], [], [],
      [⟨"198.51.100.7", 10⟩, ⟨"198.51.100.7", 20⟩, ⟨"198.51.100.7", 30⟩]⟩
      (some "w@y") "198.51.100.7" "Mozilla/5.0 (X11)" "fpw" 40
      ⟨false, false, false, false, true⟩).2.1

/-! ### C9: refreshing of the mirrored verification booleans -/

/-- C9 (counterexample): a `checkReferralCompletion` call with a
not-yet-complete verdict does *not* refresh the referral record's
mirrored booleans. The referred account has `emailVerified = true` but
the stale record keeps `emailVerified = false`: the handler returns the
checklist and leaves the store — including the record — untouched. -/
theorem referral_stale_record_on_incomplete :
    let referrer : UserRec := ⟨1, "r@x", "R", false, false, false,
      some "rtag", Option.none, 0, 2, false, Option.none, Option.none, 0⟩
    let user : UserRec := ⟨2, "u@x", "U", true, true, false, some "utag",
      some "rtag", 0, 0, false, Option.none, Option.none, 0⟩
    let r0 : ReferralRec := ⟨1, "u@x", "U", RefStatus.pending, false,
      false, false, false, false, false, Option.none⟩
    let s : Store := ⟨[referrer, user], [], [r0], [], [], [], []⟩
    let res := checkReferralCompletion s "u@x" 50 AwardFaults.none
      AwardFaults.none
    res.1 = RefOutcome.notComplete true true false true ∧
    res.2 = s ∧
    user.emailVerified = true ∧
    (findReferral res.2 1 "u@x").map (·.emailVerified) = some false := by
  decide

/-- C9 (amended): the referral record's mirrored booleans are refreshed
only on calls whose completion verdict is complete; when any of the four
flags is false the handler returns the requirement checklist before
touching the store, so the record (and everything else) is unchanged. -/
theorem referral_incomplete_leaves_store_unchanged (s : Store) (e : String)
    (now : Nat) (f1 f2 : AwardFaults) (user : UserRec)
    (hfind : findUserByEmail s e = some user)
    (hincomplete : (user.emailVerified && user.telegramVerified &&
      user.telegramFollowed && user.renopaysTag.isSome) = false) :
    checkReferralCompletion s e now f1 f2 =
      (RefOutcome.notComplete user.emailVerified user.telegramVerified
        user.telegramFollowed user.renopaysTag.isSome, s) := by
  simp [checkReferralCompletion, hfind, hincomplete]

/-- Witness for C9's amended theorem at the concrete stale-record store. -/
theorem referral_incomplete_leaves_store_unchanged_witness :
    checkReferralCompletion ⟨[⟨1, "r@x", "R", false, false, false,
      some "rtag", Option.none, 0, 2, false, Option.none, Option.none, 0⟩,
      ⟨2, "u@x", "U", true, true, false, some "utag", some "rtag", 0, 0,
       false, Option.none, Option.none, 0⟩],
      [], [⟨1, "u@x", "U", RefStatus.pending, false, false, false, false,
       false, false, Option.none⟩], [], [], [], []⟩ "u@x" 50
      AwardFaults.none AwardFaults.none =
      (RefOutcome.notComplete true true false true,
       ⟨[⟨1, "r@x", "R", false, false, false, some "rtag", Option.none, 0,
          2, false, Option.none, Option.none, 0⟩,
         ⟨2, "u@x", "U", true, true, false, some "utag", some "rtag", 0,
          0, false, Option.none, Option.none, 0⟩],
        [], [⟨1, "u@x", "U", RefStatus.pending, false, false, false,
         false, false, false, Option.none⟩], [], [], [], []⟩) := by
  exact referral_incomplete_leaves_store_unchanged _ "u@x" 50
    AwardFaults.none AwardFaults.none
    ⟨2, "u@x", "U", true, true, false, some "utag", some "rtag", 0, 0,
     false, Option.none, Option.none, 0⟩ (by decide) (by decide)

/-! ### C1: referral dual award, exactly once -/

set_option maxHeartbeats 2000000 in
/-- C1: for a referred account whose four verification flags are all true
and whose referral record still has `pointsAwarded = false`, one
fault-free `checkReferralCompletion` call reports complete, awards the
referrer +150 and the referred account +100, flips the record's
`pointsAwarded` to true and increments the referrer's
`successfulReferrals` by one; a second identical call changes neither
balance, appends no transaction and leaves the counter alone. -/
theorem referral_dual_award_exactly_once (referrer user : UserRec)
    (r0 : ReferralRec) (ts : List PointsTxn) (tag : String)
    (now now2 : Nat)
    (hid : referrer.id ≠ user.id)
    (hemail : referrer.email ≠ user.email)
    (hf1 : user.emailVerified = true)
    (hf2 : user.telegramVerified = true)
    (hf3 : user.telegramFollowed = true)
    (hf4 : user.renopaysTag.isSome = true)
    (hrefBy : user.referredBy = some tag)
    (hrtag : referrer.renopaysTag = some tag)
    (hkey : lowerStr user.email = user.email)
    (hr0a : r0.referrerId = referrer.id)
    (hr0b : r0.referredEmail = user.email)
    (hr0c : r0.pointsAwarded = false) :
    let s : Store := ⟨[referrer, user], ts, [r0], [], [], [], []⟩
    let c1 := checkReferralCompletion s user.email now AwardFaults.none
      AwardFaults.none
    let c2 := checkReferralCompletion c1.2 user.email now2 AwardFaults.none
      AwardFaults.none
    c1.1 = RefOutcome.complete ∧
    userPoints c1.2 referrer.id = some (referrer.points + 150) ∧
    userPoints c1.2 user.id = some (user.points + 100) ∧
    (findReferral c1.2 referrer.id user.email).map (·.pointsAwarded) =
      some true ∧
    (findUserById c1.2 referrer.id).map (·.successfulReferrals) =
      some (referrer.successfulReferrals + 1) ∧
    c2.2.txns = c1.2.txns ∧
    userPoints c2.2 referrer.id = userPoints c1.2 referrer.id ∧
    userPoints c2.2 user.id = userPoints c1.2 user.id ∧
    (findUserById c2.2 referrer.id).map (·.successfulReferrals) =
      some (referrer.successfulReferrals + 1) := by
  have b1 : (referrer.email == user.email) = false :=
    beq_eq_false_iff_ne.mpr hemail
  have b2 : (user.id == referrer.id) = false :=
    beq_eq_false_iff_ne.mpr (fun h => hid h.symm)
  have b3 : (referrer.id == user.id) = false :=
    beq_eq_false_iff_ne.mpr hid
  have hid2 : ¬ user.id = referrer.id := fun h => hid h.symm
  have hemail2 : ¬ user.email = referrer.email := fun h => hemail h.symm
  simp [hid, hid2, hemail2, checkReferralCompletion, awardPoints,
    findUserByEmail, findUserByTag, findUserById, findReferral,
    saveReferral, saveUser, saveSuccessfulReferrals, userPoints, hf1, hf2,
    hf3, hf4, hrefBy, hrtag, hkey, hr0a, hr0b, hr0c, b1, b2, b3,
    AwardFaults.none]

/-- Witness for C1 at a concrete referrer (7 points, 2 successful
referrals) and referred account (5 points) with a fresh pending record. -/
theorem referral_dual_award_exactly_once_witness :
    let referrer : UserRec := ⟨1, "r@x", "R", false, false, false,
      some "rtag", Option.none, 7, 2, false, Option.none, Option.none, 0⟩
    let user : UserRec := ⟨2, "u@x", "U", true, true, true, some "utag",
      some "rtag", 5, 0, false, Option.none, Option.none, 0⟩
    let r0 : ReferralRec := ⟨1, "u@x", "U", RefStatus.pending, false,
      false, false, false, false, false, Option.none⟩
    let s : Store := ⟨[referrer, user], [], [r0], [], [], [], []⟩
    let c1 := checkReferralCompletion s user.email 99 AwardFaults.none
      AwardFaults.none
    let c2 := checkReferralCompletion c1.2 user.email 100 AwardFaults.none
      AwardFaults.none
    c1.1 = RefOutcome.complete ∧
    userPoints c1.2 referrer.id = some (referrer.points + 150) ∧
    userPoints c1.2 user.id = some (user.points + 100) ∧
    (findReferral c1.2 referrer.id user.email).map (·.pointsAwarded) =
      some true ∧
    (findUserById c1.2 referrer.id).map (·.successfulReferrals) =
      some (referrer.successfulReferrals + 1) ∧
    c2.2.txns = c1.2.txns ∧
    userPoints c2.2 referrer.id = userPoints c1.2 referrer.id ∧
    userPoints c2.2 user.id = userPoints c1.2 user.id ∧
    (findUserById c2.2 referrer.id).map (·.successfulReferrals) =
      some (referrer.successfulReferrals + 1) := by
  exact referral_dual_award_exactly_once
    ⟨1, "r@x", "R", false, false, false, some "rtag", Option.none, 7, 2,
     false, Option.none, Option.none, 0⟩
    ⟨2, "u@x", "U", true, true, true, some "utag", some "rtag", 5, 0,
     false, Option.none, Option.none, 0⟩
    ⟨1, "u@x", "U", RefStatus.pending, false, false, false, false, false,
     false, Option.none⟩
    [] "rtag" 99 100 (by decide) (by decide) (by decide) (by decide)
    (by decide) (by decide) (by decide) (by decide) (by decide)
    (by decide) (by decide) (by decide)

/-! ### C4: the successful-referrals counter and the two awards -/

/-- C4 (counterexample): `successfulReferrals` is incremented even though
the +100 referred-account award fails in the same invocation (its
`user.save()` throws): the counter goes from 2 to 3 while
`pointsAwarded` stays false and the referred balance is unchanged. -/
theorem referral_counter_despite_failed_bonus :
    let referrer : UserRec := ⟨1, "r@x", "R", false, false, false,
      some "rtag", Option.none, 7, 2, false, Option.none, Option.none, 0⟩
    let user : UserRec := ⟨2, "u@x", "U", true, true, true, some "utag",
      some "rtag", 5, 0, false, Option.none, Option.none, 0⟩
    let r0 : ReferralRec := ⟨1, "u@x", "U", RefStatus.pending, false,
      false, false, false, false, false, Option.none⟩
    let s : Store := ⟨[referrer, user], [], [r0], [], [], [], []⟩
    let res := checkReferralCompletion s "u@x" 99 AwardFaults.none
      ⟨false, true, false⟩
    (findUserById res.2 1).map (·.successfulReferrals) = some 3 ∧
    (findReferral res.2 1 "u@x").map (·.pointsAwarded) = some false ∧
    userPoints res.2 2 = some 5 ∧
    userPoints res.2 1 = some 157 := by
  decide

set_option maxHeartbeats 4000000 in
/-- C4 (amended): in a `checkReferralCompletion` invocation on a fully
verified referred account with an unrewarded record, the referrer's
`successfulReferrals` counter increments by one exactly when the +150
referrer award succeeds, regardless of whether the +100 referred-account
award succeeds or fails; when the referrer award fails the counter is
unchanged. -/
theorem referral_counter_follows_referrer_award (referrer user : UserRec)
    (r0 : ReferralRec) (ts : List PointsTxn) (tag : String) (now : Nat)
    (f1 f2 : AwardFaults)
    (hid : referrer.id ≠ user.id)
    (hemail : referrer.email ≠ user.email)
    (hf1 : user.emailVerified = true)
    (hf2 : user.telegramVerified = true)
    (hf3 : user.telegramFollowed = true)
    (hf4 : user.renopaysTag.isSome = true)
    (hrefBy : user.referredBy = some tag)
    (hrtag : referrer.renopaysTag = some tag)
    (hkey : lowerStr user.email = user.email)
    (hr0a : r0.referrerId = referrer.id)
    (hr0b : r0.referredEmail = user.email)
    (hr0c : r0.pointsAwarded = false) :
    let s : Store := ⟨[referrer, user], ts, [r0], [], [], [], []⟩
    (findUserById (checkReferralCompletion s user.email now f1 f2).2
        referrer.id).map (·.successfulReferrals) =
      some (if f1.findFails || f1.saveFails || f1.createFails
            then referrer.successfulReferrals
            else referrer.successfulReferrals + 1) := by
  have hid2 : ¬ user.id = referrer.id := fun h => hid h.symm
  have hemail2 : ¬ user.email = referrer.email := fun h => hemail h.symm
  have b1 : (referrer.email == user.email) = false :=
    beq_eq_false_iff_ne.mpr hemail
  have b2 : (user.id == referrer.id) = false :=
    beq_eq_false_iff_ne.mpr (fun h => hid h.symm)
  have b3 : (referrer.id == user.id) = false :=
    beq_eq_false_iff_ne.mpr hid
  rcases f1 with ⟨a1, b1', c1⟩
  rcases f2 with ⟨a2, b2', c2⟩
  cases a1 <;> cases b1' <;> cases c1 <;> cases a2 <;> cases b2' <;>
    cases c2 <;>
    simp [hid, hid2, hemail2, b1, b2, b3, checkReferralCompletion,
      awardPoints, findUserByEmail, findUserByTag, findUserById,
      findReferral, saveReferral, saveUser, saveSuccessfulReferrals,
      userPoints, hf1, hf2, hf3, hf4, hrefBy, hrtag, hkey, hr0a, hr0b,
      hr0c, AwardFaults.none]

/-- Witness for C4's amended theorem: the referrer award succeeds and the
referred award fails (`saveFails`), and the counter still increments. -/
theorem referral_counter_follows_referrer_award_witness :
    let referrer : UserRec := ⟨1, "r@x", "R", false, false, false,
      some "rtag", Option.none, 7, 2, false, Option.none, Option.none, 0⟩
    let user : UserRec := ⟨2, "u@x", "U", true, true, true, some "utag",
      some "rtag", 5, 0, false, Option.none, Option.none, 0⟩
    let r0 : ReferralRec := ⟨1, "u@x", "U", RefStatus.pending, false,
      false, false, false, false, false, Option.none⟩
    let s : Store := ⟨[referrer, user], [], [r0], [], [], [], []⟩
    (findUserById (checkReferralCompletion s user.email 99
        AwardFaults.none ⟨false, true, false⟩).2 1).map
        (·.successfulReferrals) =
      some (if AwardFaults.none.findFails || AwardFaults.none.saveFails ||
            AwardFaults.none.createFails then 2 else 2 + 1) := by
  exact referral_counter_follows_referrer_award
    ⟨1, "r@x", "R", false, false, false, some "rtag", Option.none, 7, 2,
     false, Option.none, Option.none, 0⟩
    ⟨2, "u@x", "U", true, true, true, some "utag", some "rtag", 5, 0,
     false, Option.none, Option.none, 0⟩
    ⟨1, "u@x", "U", RefStatus.pending, false, false, false, false, false,
     false, Option.none⟩
    [] "rtag" 99 AwardFaults.none ⟨false, true, false⟩ (by decide)
    (by decide) (by decide) (by decide) (by decide) (by decide)
    (by decide) (by decide) (by decide) (by decide) (by decide)
    (by decide)

/-! ### C3: idempotence of the direct-path task reward -/

set_option maxHeartbeats 1000000 in
/-- C3: on a fresh (account, task) pair of a direct-path task
(`requiresVerification = false`) with a positive reward, the first
fault-free `completeTask` call succeeds, appends exactly one points
transaction, increments the balance once and flips `pointsAwarded`; the
second call is rejected as already completed and changes nothing. -/
theorem completeTask_direct_idempotent (user : UserRec) (task : TaskRec)
    (ts : List PointsTxn) (now now2 : Nat)
    (hactive : task.isActive = true)
    (hreq : task.requiresVerification = false)
    (hrw : 0 < task.pointsReward) :
    let s : Store := ⟨[user], ts, [], [task], [], [], []⟩
    let c1 := completeTask s user.email task.id now AwardFaults.none
    let c2 := completeTask c1.2 user.email task.id now2 AwardFaults.none
    c1.1 = TaskOutcome.ok ∧
    c1.2.txns = ts ++ [⟨user.id, task.pointsReward,
      "Task completed: " ++ task.title⟩] ∧
    userPoints c1.2 user.id = some (user.points + task.pointsReward) ∧
    (findUserTask c1.2 user.id task.id).map (·.pointsAwarded) =
      some true ∧
    (findUserTask c1.2 user.id task.id).map (·.status) =
      some TaskStatus.completed ∧
    c2.1 = TaskOutcome.alreadyCompleted ∧
    c2.2 = c1.2 := by
  have hint : ¬ ((task.pointsReward : Int) ≤ 0) := by omega
  simp [completeTask, awardPoints, findUserByEmail, findTaskActive,
    findUserById, findUserTask, saveUser, saveUserTask, userPoints,
    hactive, hreq, hrw, hint, AwardFaults.none]

/-- Witness for C3 at a concrete account (5 points) and a 25-point
direct-path task. -/
theorem completeTask_direct_idempotent_witness :
    let user : UserRec := ⟨3, "t@x", "T", false, false, false,
      Option.none, Option.none, 5, 0, false, Option.none, Option.none, 0⟩
    let task : TaskRec := ⟨7, "Join Discord", 25, true, false⟩
    let s : Store := ⟨[user], [], [], [task], [], [], []⟩
    let c1 := completeTask s user.email task.id 10 AwardFaults.none
    let c2 := completeTask c1.2 user.email task.id 20 AwardFaults.none
    c1.1 = TaskOutcome.ok ∧
    c1.2.txns = [] ++ [⟨user.id, task.pointsReward,
      "Task completed: " ++ task.title⟩] ∧
    userPoints c1.2 user.id = some (user.points + task.pointsReward) ∧
    (findUserTask c1.2 user.id task.id).map (·.pointsAwarded) =
      some true ∧
    (findUserTask c1.2 user.id task.id).map (·.status) =
      some TaskStatus.completed ∧
    c2.1 = TaskOutcome.alreadyCompleted ∧
    c2.2 = c1.2 := by
  exact completeTask_direct_idempotent
    ⟨3, "t@x", "T", false, false, false, Option.none, Option.none, 5, 0,
     false, Option.none, Option.none, 0⟩
    ⟨7, "Join Discord", 25, true, false⟩ [] 10 20 (by decide) (by decide)
    (by decide)

/-! ### C8: submit conflicts exactly on terminal records -/

set_option maxHeartbeats 1000000 in
/-- C8: for an existing completion record of an active task and a valid
submission link, `submitTask` is rejected as a conflict exactly when the
record's status is `approved` or `completed` (in which case the store is
untouched); in particular a `rejected` record accepts the submit and
transitions to `submitted`, overwriting the submission link and
timestamp. -/
theorem submitTask_conflict_iff_terminal (user : UserRec) (task : TaskRec)
    (ut0 : UserTaskRec) (ts : List PointsTxn) (link : String)
    (validURL : String → Bool) (now : Nat)
    (hactive : task.isActive = true)
    (hvalid : validURL link = true)
    (hut0a : ut0.userId = user.id)
    (hut0b : ut0.taskId = task.id) :
    let s : Store := ⟨[user], ts, [], [task], [ut0], [], []⟩
    let res := submitTask s user.email task.id (some link) validURL now
    (res.1 = TaskOutcome.alreadyCompleted ↔
      (ut0.status = TaskStatus.approved ∨
       ut0.status = TaskStatus.completed)) ∧
    ((ut0.status = TaskStatus.approved ∨
      ut0.status = TaskStatus.completed) → res.2 = s) ∧
    (ut0.status = TaskStatus.rejected →
      res.1 = TaskOutcome.ok ∧
      findUserTask res.2 user.id task.id =
        some { ut0 with
          status := TaskStatus.submitted
          submissionLink := some link
          submittedAt := some now }) := by
  cases hst : ut0.status <;>
    simp [submitTask, findUserByEmail, findTaskActive, findUserTask,
      saveUserTask, hactive, hvalid, hut0a, hut0b, hst]

/-- Witness for C8 at a concrete rejected record being resubmitted with a
fresh link (the URL oracle accepts any string here). -/
theorem submitTask_conflict_iff_terminal_witness :
    let user : UserRec := ⟨4, "s@x", "S", false, false, false,
      Option.none, Option.none, 0, 0, false, Option.none, Option.none, 0⟩
    let task : TaskRec := ⟨8, "Retweet", 10, true, true⟩
    let ut0 : UserTaskRec := ⟨4, 8, TaskStatus.rejected, Option.none,
      some 5, some 6, some "https://old.example/p", some "too blurry",
      false⟩
    let s : Store := ⟨[user], [], [], [task], [ut0], [], []⟩
    let res := submitTask s user.email task.id
      (some "https://new.example/p") (fun _ => true) 30
    (res.1 = TaskOutcome.alreadyCompleted ↔
      (ut0.status = TaskStatus.approved ∨
       ut0.status = TaskStatus.completed)) ∧
    ((ut0.status = TaskStatus.approved ∨
      ut0.status = TaskStatus.completed) → res.2 = s) ∧
    (ut0.status = TaskStatus.rejected →
      res.1 = TaskOutcome.ok ∧
      findUserTask res.2 user.id task.id =
        some { ut0 with
          status := TaskStatus.submitted
          submissionLink := some "https://new.example/p"
          submittedAt := some 30 }) := by
  exact submitTask_conflict_iff_terminal
    ⟨4, "s@x", "S", false, false, false, Option.none, Option.none, 0, 0,
     false, Option.none, Option.none, 0⟩
    ⟨8, "Retweet", 10, true, true⟩
    ⟨4, 8, TaskStatus.rejected, Option.none, some 5, some 6,
     some "https://old.example/p", some "too blurry", false⟩
    [] "https://new.example/p" (fun _ => true) 30 (by decide) (by decide)
    (by decide) (by decide)

end Renotags
